import Mathlib

/-!
Verification development for the Proxmox-GML GPU monitoring pipeline
(`src/proxmox_gml.py`).  The Python source is shallowly embedded below:

* Python dicts that are used as insertion-ordered maps are embedded as
  association lists `List (String × α)` with first-match lookup
  (`alookup`), in-place update of the first matching entry (`aupdate`)
  and append-on-new-key, which matches Python dict semantics.
* Python `set` values (the per-container GPU index sets) are embedded as
  `Finset Nat`.
* Filesystem reads, regex searches over file contents and external tool
  invocations performed by `get_container_info` (lines 59-116) are
  embedded as an explicit environment record `ResolverEnv` whose fields
  hold the outcome of each external observation; `none` for a
  subprocess field models the invocation raising an exception.
* The nvitop telemetry subprocess (lines 244-250) is embedded as an
  `Except String RawData` oracle: `Except.error msg` covers both the
  unreachable source (run_nvitop_script returning None, line 246) and
  unparsable output (the except branch at lines 330-334).
* The module-level cache `last_data` / `last_update_time`
  (lines 38-39) is embedded as `CacheState`; `last_data = none` models
  the initial empty dict `{}` (which is falsy at line 124).
-/

set_option maxHeartbeats 1000000

namespace ProxmoxGML

/-- One GPU device record produced by the telemetry read
(`gpu_info` entries, lines 140-153 of the embedded nvitop script).
The optional clock/throughput fields are pass-through data for the
pipeline and are not modelled field by field. -/
structure GpuReading where
  index : Nat
  name : String
  uuid : String
  utilization : Int
  memory_used : Int
  memory_total : Int
  temperature : Int
  power_usage : Int
  power_limit : Int
  deriving DecidableEq, Repr

/-- One GPU-consuming process as reported by telemetry
(`processes` entries, lines 203-234 of the embedded nvitop script).
`gpu_utilization` is `none` when the `gpu_utilization` key is absent
from the process dict (line 215-216 guard). -/
structure RawProc where
  pid : Nat
  command : String
  username : String
  gpu_index : Nat
  gpu_memory : Int
  gpu_utilization : Option Int
  cpu_percent : Option Int
  host_memory : Option Int
  running_time : Option Int
  status : Option String
  deriving DecidableEq, Repr

/-- A process after container attribution (lines 252-260): the raw
fields plus `container_id` / `container_name`, which are both `none`
(Python `None`) for unattributed processes. -/
structure ProcReading where
  pid : Nat
  command : String
  username : String
  gpu_index : Nat
  gpu_memory : Int
  gpu_utilization : Option Int
  cpu_percent : Option Int
  host_memory : Option Int
  running_time : Option Int
  status : Option String
  container_id : Option String
  container_name : Option String
  deriving DecidableEq, Repr

/-- Result of `get_container_info` (lines 108-111): the dict
`{'id': container_id, 'name': container_name}`. -/
structure ContainerInfo where
  id : String
  name : String
  deriving DecidableEq, Repr

/-- The parsed output of the telemetry subprocess (line 237-241):
`{'gpu_info': ..., 'processes': ...}`. -/
structure RawData where
  gpu_info : List GpuReading
  processes : List RawProc
  deriving DecidableEq, Repr

/-- One `multi_gpu_containers` entry (lines 286-289): the set of GPU
indices used by the container and the remembered container name.  The
name is `Option String` because the Python value stored in
`container_names` is the process's `container_name` field, which is
Python `None` for a process whose name resolution returned `None`. -/
structure MultiGpuEntry where
  gpu_indices : Finset Nat
  name : Option String
  deriving DecidableEq

/-- One `container_processes` rollup entry (lines 300-307). -/
structure Rollup where
  container_id : String
  container_name : String
  gpu_index : Nat
  process_count : Nat
  total_memory : Int
  gpu_utilization : Int
  deriving DecidableEq, Repr

/-- The data dict assembled by `collect_data` (lines 317-323 for a
success, lines 247 and 334 for a failure).  An error dict in the source
simply lacks the four collection keys; reading them with a default
yields empty collections, which is how the error case is embedded. -/
structure Snapshot where
  timestamp : Nat
  error : Option String
  gpu_info : List GpuReading
  processes : List ProcReading
  multi_gpu_containers : List (String × MultiGpuEntry)
  container_processes : List (String × Rollup)
  deriving DecidableEq

/-- The module-level cache (lines 38-39): `last_data` (with `none`
standing for the falsy initial `{}`) and `last_update_time`. -/
structure CacheState where
  last_data : Option Snapshot
  last_update_time : Nat
  deriving DecidableEq

/-! ## Python dict / truthiness helpers -/

/-- First-match lookup in an insertion-ordered association list,
matching Python `d[k]` / `k in d`. -/
def alookup {α : Type} : List (String × α) → String → Option α
  | [], _ => none
  | (ka, v) :: t, k => if ka = k then some v else alookup t k

/-- Update the first entry with the given key in place, leaving the
rest of the list untouched, matching Python `d[k] = f(d[k])`. -/
def aupdate {α : Type} (f : α → α) : List (String × α) → String → List (String × α)
  | [], _ => []
  | (ka, v) :: t, k => if ka = k then (ka, f v) :: t else (ka, v) :: aupdate f t k

/-- The key sequence of an association list. -/
def keysOf {α : Type} (m : List (String × α)) : List String :=
  m.map Prod.fst

/-- Python truthiness of an optional string: `None` and `''` are falsy. -/
def pyTruthy : Option String → Bool
  | some s => s ≠ ""
  | none => false

/-- Python `x or d` for an optional string `x`: yields `d` when `x` is
`None` or the empty string. -/
def pyOr (o : Option String) (d : String) : String :=
  match o with
  | some s => if s = "" then d else s
  | none => d

/-- Python `str.isdigit` restricted to ASCII digits: true on nonempty
all-digit strings (the strings matched by the `([0-9]+)` group). -/
def pyIsDigit (s : String) : Bool :=
  (s ≠ "" : Bool) && s.toList.all Char.isDigit

/-! ## ContainerResolver: `get_container_info` (lines 59-116)

The external observations made by the function are collected in
`ResolverEnv`:

* `cgroup_exists` — `os.path.exists(f"/proc/{pid}/cgroup")`, line 64;
* `lxc_in_cgroup` — `'/lxc/' in cgroup_content`, line 71;
* `container_match` — group 1 of `re.search(r'/lxc/([0-9]+)/', ...)`,
  line 74;
* `service_match` — group 1 of
  `re.search(r'system\.slice/([^/]+)\.service', ...)`, line 79;
* `conf_exists` — `os.path.exists(f"/etc/pve/lxc/{id}.conf")`, line 87;
* `conf_grep` — the stripped output of the hostname grep pipeline
  (lines 89-90); `none` models the subprocess raising (line 91-92);
* `pct_exists` — `os.path.exists("/usr/sbin/pct")`, line 95;
* `pct_output` — the stripped output of the `pct list` pipeline
  (lines 97-98); `none` models the subprocess raising (lines 101-102).
-/

structure ResolverEnv where
  cgroup_exists : Bool
  lxc_in_cgroup : Bool
  container_match : Option String
  service_match : Option String
  conf_exists : Bool
  conf_grep : Option String
  pct_exists : Bool
  pct_output : Option String
  deriving DecidableEq, Repr

/-- `get_container_info` (lines 59-116), with the external world
abstracted into `env`.  Returns `none` for "no attribution" (missing
cgroup record, no `/lxc/` segment, no id match), otherwise the id with
the best-effort name produced by the fallback chain of lines 82-106. -/
def get_container_info (env : ResolverEnv) : Option ContainerInfo :=
  if !env.cgroup_exists then none
  else if env.lxc_in_cgroup then
    match env.container_match with
    | some container_id =>
        let service_name := env.service_match
        let name0 := "Unknown"
        let name :=
          if pyIsDigit container_id then
            -- lines 86-92: Proxmox config file lookup
            let n1 := if env.conf_exists then
                        match env.conf_grep with
                        | some s => s
                        | none => name0
                      else name0
            -- lines 95-102: pct list lookup
            let n2 := if n1 = "Unknown" ∧ env.pct_exists then
                        match env.pct_output with
                        | some s => if s ≠ "Unknown" then s else n1
                        | none => n1
                      else n1
            -- lines 105-106: systemd service-name fallback
            let n3 := if n2 = "Unknown" then
                        match service_name with
                        | some sv => if sv ≠ "" then sv else n2
                        | none => n2
                      else n2
            n3
          else name0
        some ⟨container_id, name⟩
    | none => none
  else none

/-- Step (a) of the name-resolution chain as an optional result: the
config-file hostname lookup succeeds when the file exists, the grep
pipeline does not raise, and its output is not the `'Unknown'`
sentinel injected by `|| echo 'Unknown'`. -/
def confStep (env : ResolverEnv) : Option String :=
  if env.conf_exists then
    match env.conf_grep with
    | some s => if s = "Unknown" then none else some s
    | none => none
  else none

/-- Step (b): the `pct list` lookup succeeds when the tool exists, the
pipeline does not raise, and its output is not `'Unknown'`. -/
def pctStep (env : ResolverEnv) : Option String :=
  if env.pct_exists then
    match env.pct_output with
    | some s => if s = "Unknown" then none else some s
    | none => none
  else none

/-- Step (c): the systemd service-name fallback succeeds when the
regex matched a (truthy) service name. -/
def serviceStep (env : ResolverEnv) : Option String :=
  match env.service_match with
  | some sv => if sv = "" then none else some sv
  | none => none

/-- Descending-priority choice among the three fallback results, with
literal `"Unknown"` as the last resort (step (d)). -/
def chainName (a b c : Option String) : String :=
  match a with
  | some s => s
  | none =>
      match b with
      | some s => s
      | none =>
          match c with
          | some s => s
          | none => "Unknown"

/-! ## SnapshotBuilder: the body of `collect_data` (lines 249-323) -/

/-- Lines 252-260: annotate one telemetry process with the resolver's
attribution; both fields are set together or left `None` together. -/
def annotate (resolver : Nat → Option ContainerInfo) (q : RawProc) : ProcReading :=
  match resolver q.pid with
  | some info =>
      ⟨q.pid, q.command, q.username, q.gpu_index, q.gpu_memory, q.gpu_utilization,
       q.cpu_percent, q.host_memory, q.running_time, q.status,
       some info.id, some info.name⟩
  | none =>
      ⟨q.pid, q.command, q.username, q.gpu_index, q.gpu_memory, q.gpu_utilization,
       q.cpu_percent, q.host_memory, q.running_time, q.status,
       none, none⟩

/-- One iteration of the multi-GPU detection loop (lines 266-280),
threading the pair `(container_names, containers)`.  A process takes
part only when its `container_id` is truthy (line 267). -/
def mgStep (st : List (String × Option String) × List (String × Finset Nat))
    (p : ProcReading) :
    List (String × Option String) × List (String × Finset Nat) :=
  match p.container_id with
  | some cid =>
      if cid = "" then st
      else
        -- lines 273-274: remember the first name seen for this container
        let ns := match alookup st.1 cid with
                  | some _ => st.1
                  | none => st.1 ++ [(cid, p.container_name)]
        -- lines 277-280: containers[cid] = set(); containers[cid].add(gpu)
        let cs := match alookup st.2 cid with
                  | some _ => st.2
                  | none => st.2 ++ [(cid, (∅ : Finset Nat))]
        (ns, aupdate (fun sset => insert p.gpu_index sset) cs cid)
  | none => st

/-- The `container_names` dict after the loop of lines 266-280. -/
def containerNames (ps : List ProcReading) : List (String × Option String) :=
  (ps.foldl mgStep ([], [])).1

/-- The `containers` dict after the loop of lines 266-280. -/
def containerGpus (ps : List ProcReading) : List (String × Finset Nat) :=
  (ps.foldl mgStep ([], [])).2

/-- Lines 283-289: keep the containers whose GPU index set has more
than one element, looking the display name up in `container_names`
with default `'Unknown'`. -/
def multiGpu (ps : List ProcReading) : List (String × MultiGpuEntry) :=
  (containerGpus ps).filterMap (fun cS =>
    if 1 < cS.2.card then
      some (cS.1, ⟨cS.2, match alookup (containerNames ps) cS.1 with
                         | some v => v
                         | none => some "Unknown"⟩)
    else none)

/-- The f-string dict key of line 298: `f"{container_id}_{gpu_index}"`. -/
def rollupKey (cid : String) (gpu : Nat) : String :=
  cid ++ "_" ++ toString gpu

/-- The fresh rollup entry of lines 300-307. -/
def rollupInit (cid cname : String) (gpu : Nat) : Rollup :=
  ⟨cid, cname, gpu, 0, 0, 0⟩

/-- Lines 309-314: accumulate one process into its rollup entry; the
utilization sum only receives a contribution when the process dict has
the `gpu_utilization` key. -/
def rollupAdd (p : ProcReading) (r : Rollup) : Rollup :=
  { r with
    process_count := r.process_count + 1
    total_memory := r.total_memory + p.gpu_memory
    gpu_utilization :=
      match p.gpu_utilization with
      | some u => r.gpu_utilization + u
      | none => r.gpu_utilization }

/-- One iteration of the rollup loop (lines 293-314). -/
def rollupStep (m : List (String × Rollup)) (p : ProcReading) : List (String × Rollup) :=
  let cid := pyOr p.container_id "Host"
  let cname := pyOr p.container_name "Host System"
  let key := rollupKey cid p.gpu_index
  let m1 := match alookup m key with
            | some _ => m
            | none => m ++ [(key, rollupInit cid cname p.gpu_index)]
  aupdate (rollupAdd p) m1 key

/-- The `container_processes` dict after the loop of lines 291-314. -/
def rollups (ps : List ProcReading) : List (String × Rollup) :=
  ps.foldl rollupStep []

/-- The success path of `collect_data` (lines 249-323): annotate every
process, derive the multi-GPU containers and the rollups, and assemble
the final data dict with `error` absent. -/
def build_snapshot (resolver : Nat → Option ContainerInfo) (raw : RawData)
    (now : Nat) : Snapshot :=
  let procs := raw.processes.map (annotate resolver)
  { timestamp := now
    error := none
    gpu_info := raw.gpu_info
    processes := procs
    multi_gpu_containers := multiGpu procs
    container_processes := rollups procs }

/-- The error dict of lines 247 and 334: only `timestamp` and `error`
are populated (the collection keys are absent in the source, which the
embedding renders as empty). -/
def errorSnapshot (now : Nat) (msg : String) : Snapshot :=
  { timestamp := now
    error := some msg
    gpu_info := []
    processes := []
    multi_gpu_containers := []
    container_processes := [] }

/-! ## SnapshotCache: `collect_data` (lines 118-334) -/

/-- The build part of `collect_data` (lines 244-334): invoke the
telemetry oracle; on failure return the error dict without touching
the cache (the source's error returns at 247 and 334 skip the cache
update of lines 326-327); on success assemble the snapshot and install
it in the cache.  The third component records that the telemetry
subprocess was invoked. -/
def collect_build (resolver : Nat → Option ContainerInfo)
    (telemetry : Except String RawData) (now : Nat) (s : CacheState) :
    Snapshot × CacheState × Bool :=
  match telemetry with
  | Except.error msg => (errorSnapshot now msg, s, true)
  | Except.ok raw =>
      let data := build_snapshot resolver raw now
      (data, ⟨some data, now⟩, true)

/-- `collect_data` (lines 118-334): serve the cached dict when it is
truthy and fresh (line 124), otherwise run the build.  The boolean
result records whether the telemetry subprocess was invoked by this
call. -/
def collect_data (resolver : Nat → Option ContainerInfo)
    (telemetry : Except String RawData) (now interval : Nat) (s : CacheState) :
    Snapshot × CacheState × Bool :=
  match s.last_data with
  | some d =>
      if now - s.last_update_time < interval then (d, s, false)
      else collect_build resolver telemetry now s
  | none => collect_build resolver telemetry now s

/-- A sequence of `collect_data` calls, each with its own call time and
telemetry outcome, threading the cache state; returns the per-call
(result, telemetry-invoked) trace and the final state. -/
def runCalls (resolver : Nat → Option ContainerInfo) (interval : Nat) :
    CacheState → List (Nat × Except String RawData) →
    List (Snapshot × Bool) × CacheState
  | s, [] => ([], s)
  | s, (now, tel) :: rest =>
      let r := collect_data resolver tel now interval s
      let rec_result := runCalls resolver interval r.2.1 rest
      ((r.1, r.2.2) :: rec_result.1, rec_result.2)

/-! ## Thread interleaving model for the HTTP server

The source serves each request on its own thread
(`ThreadingMixIn`, lines 1006-1008) and `collect_data` performs no
locking, so the staleness check of line 124 and the cache update of
lines 326-327 of two requests can interleave freely (the telemetry
subprocess call between them releases the interpreter lock).  Each
thread is modelled as an atomic staleness check (`ready`, line 124)
followed by an atomic build-and-install (`building`,
lines 244-334). -/

inductive TPhase where
  | ready : Nat → TPhase
  | building : Nat → TPhase
  | finished : Snapshot → TPhase
  deriving DecidableEq

structure ConcState where
  cache : CacheState
  calls : Nat
  threads : List TPhase
  deriving DecidableEq

/-- One atomic step of one thread. -/
def threadStep (resolver : Nat → Option ContainerInfo)
    (tel : Except String RawData) (interval : Nat)
    (cache : CacheState) (calls : Nat) : TPhase → CacheState × Nat × TPhase
  | TPhase.ready now =>
      match cache.last_data with
      | some d =>
          if now - cache.last_update_time < interval
          then (cache, calls, TPhase.finished d)
          else (cache, calls, TPhase.building now)
      | none => (cache, calls, TPhase.building now)
  | TPhase.building now =>
      let r := collect_build resolver tel now cache
      (r.2.1, calls + 1, TPhase.finished r.1)
  | TPhase.finished r => (cache, calls, TPhase.finished r)

/-- Run the thread named by the index for one atomic step. -/
def concStep (resolver : Nat → Option ContainerInfo)
    (tel : Except String RawData) (interval : Nat)
    (c : ConcState) (i : Nat) : ConcState :=
  match c.threads.get? i with
  | some ph =>
      let r := threadStep resolver tel interval c.cache c.calls ph
      ⟨r.1, r.2.1, c.threads.set i r.2.2⟩
  | none => c

/-- Execute a schedule: a list of thread indices, each taking one
atomic step in order. -/
def runSched (resolver : Nat → Option ContainerInfo)
    (tel : Except String RawData) (interval : Nat)
    (c : ConcState) (sched : List Nat) : ConcState :=
  sched.foldl (concStep resolver tel interval) c

/-- The timestamp of a finished thread's snapshot, if the thread is
finished. -/
def phaseTimestamp : TPhase → Option Nat
  | TPhase.finished r => some r.timestamp
  | _ => none

/-! ## Derived specification functions

These re-express what the loops of `collect_data` compute, for use in
the theorem statements; they are compared with the loop results by the
characterization lemmas below. -/

/-- The rollup group key of a process (line 298 applied to the
defaulted id of line 294). -/
def keyOfProc (p : ProcReading) : String :=
  rollupKey (pyOr p.container_id "Host") p.gpu_index

/-- The processes contributing to a given rollup key. -/
def procsAt (ps : List ProcReading) (k : String) : List ProcReading :=
  ps.filter (fun p => keyOfProc p = k)

/-- Number of processes in a rollup group. -/
def cntAt (ps : List ProcReading) (k : String) : Nat :=
  (procsAt ps k).length

/-- Total GPU memory of a rollup group. -/
def memAt (ps : List ProcReading) (k : String) : Int :=
  ((procsAt ps k).map (fun p => p.gpu_memory)).sum

/-- Summed per-process utilization of a rollup group, counting a
missing value as 0. -/
def utilAt (ps : List ProcReading) (k : String) : Int :=
  ((procsAt ps k).map (fun p => p.gpu_utilization.getD 0)).sum

/-- Add the given count, memory and utilization deltas to a rollup. -/
def bumpBy (r : Rollup) (a : Nat) (b c : Int) : Rollup :=
  { r with
    process_count := r.process_count + a
    total_memory := r.total_memory + b
    gpu_utilization := r.gpu_utilization + c }

/-- The rollup entry the loop produces for a key: seeded from the
first contributing process, accumulating over all of them. -/
def rollupOf (ps : List ProcReading) (k : String) : Option Rollup :=
  match ps.find? (fun p => keyOfProc p = k) with
  | none => none
  | some p0 =>
      some (bumpBy
        (rollupInit (pyOr p0.container_id "Host") (pyOr p0.container_name "Host System")
          p0.gpu_index)
        (cntAt ps k) (memAt ps k) (utilAt ps k))

/-- Whether a process takes part in the multi-GPU grouping for the
given container id (the truthiness test of line 267). -/
def attrB (cid : String) (p : ProcReading) : Bool :=
  p.container_id = some cid ∧ cid ≠ ""

/-- The distinct GPU indices used by the container's processes. -/
def gpusOf (ps : List ProcReading) (cid : String) : Finset Nat :=
  ((ps.filter (attrB cid)).map (fun p => p.gpu_index)).toFinset

/-- Whether a process is attributed to the given container id. -/
def spanB (cid : String) (p : ProcReading) : Bool :=
  p.container_id = some cid

/-- The distinct GPU indices spanned by the processes attributed to a
container id. -/
def spanSet (ps : List ProcReading) (cid : String) : Finset Nat :=
  ((ps.filter (spanB cid)).map (fun p => p.gpu_index)).toFinset

/-- The display name stored for a container by the multi-GPU loop
(`container_names` lookup with default `'Unknown'`, line 288). -/
def mgName (ps : List ProcReading) (cid : String) : Option String :=
  match alookup (containerNames ps) cid with
  | some v => v
  | none => some "Unknown"

/-- Sum of the `process_count` fields of a rollup dict. -/
def sumCounts (m : List (String × Rollup)) : Nat :=
  (m.map (fun kr => kr.2.process_count)).sum

/-- The aggregate (count, memory, utilization) stored in a snapshot's
rollup dict at a key. -/
def statsAt (s : Snapshot) (k : String) : Option (Nat × Int × Int) :=
  (alookup s.container_processes k).map
    (fun r => (r.process_count, r.total_memory, r.gpu_utilization))

/-- The GPU index set stored in a snapshot's multi-GPU dict at a
container id. -/
def gpusAt (s : Snapshot) (cid : String) : Option (Finset Nat) :=
  (alookup s.multi_gpu_containers cid).map (fun e => e.gpu_indices)

/-! ## Concrete example inputs -/

/-- A resolver that attributes nothing (all processes on the host). -/
def noResolver : Nat → Option ContainerInfo := fun _ => none

/-- A telemetry process record with the given pid, GPU index, memory
and optional utilization. -/
def mkProc (pid gpu : Nat) (mem : Int) (util : Option Int) : RawProc :=
  ⟨pid, "python3 train.py", "root", gpu, mem, util, none, none, none, none⟩

/-- A resolver whose two pids map to container 105 under two different
display names (the config-file lookup can succeed for one pid's cycle
and fail for another's). -/
def resMixed : Nat → Option ContainerInfo := fun pid =>
  if pid = 100 then some ⟨"105", "alpha"⟩
  else if pid = 200 then some ⟨"105", "beta"⟩
  else none

/-- A resolver that consistently names container 105. -/
def resPlain : Nat → Option ContainerInfo := fun pid =>
  if pid = 100 then some ⟨"105", "web"⟩
  else if pid = 200 then some ⟨"105", "web"⟩
  else none

/-- Two processes of container 105 on GPUs 0 and 1, plus one host
process on GPU 0. -/
def rawPair : RawData :=
  ⟨[], [mkProc 100 0 5 (some 10), mkProc 200 1 7 none, mkProc 300 0 2 (some 3)]⟩

/-- The same telemetry read with the two container processes swapped. -/
def rawSwap : RawData :=
  ⟨[], [mkProc 200 1 7 none, mkProc 100 0 5 (some 10), mkProc 300 0 2 (some 3)]⟩

/-- Resolver environment for the name-fallback scenario: the cgroup
record matched container 105, the config-file grep raises, and
`pct list` answers `training-job`. -/
def envTraining : ResolverEnv :=
  ⟨true, true, some "105", none, true, none, true, some "training-job"⟩

/-- A snapshot built at time 0, used as stale cache content. -/
def snapConc : Snapshot := build_snapshot noResolver rawPair 0

/-- Two request threads at times 10 and 11 over a cache last built at
time 0 (stale for interval 5). -/
def concInit : ConcState :=
  ⟨⟨some snapConc, 0⟩, 0, [TPhase.ready 10, TPhase.ready 11]⟩

/-! ## Association list lemmas -/

theorem alookup_append {α : Type} (m m2 : List (String × α)) (k : String) :
    alookup (m ++ m2) k =
      match alookup m k with
      | some v => some v
      | none => alookup m2 k := by
  induction m with
  | nil => simp [alookup]
  | cons kv t ih =>
      obtain ⟨ka, v⟩ := kv
      by_cases h : ka = k <;> simp [alookup, h, ih]

theorem alookup_aupdate_self {α : Type} (f : α → α) (m : List (String × α)) (k : String) :
    alookup (aupdate f m k) k = (alookup m k).map f := by
  induction m with
  | nil => simp [alookup, aupdate]
  | cons kv t ih =>
      obtain ⟨ka, v⟩ := kv
      by_cases h : ka = k <;> simp [alookup, aupdate, h, ih]

theorem alookup_aupdate_of_ne {α : Type} (f : α → α) (m : List (String × α))
    (k j : String) (h : k ≠ j) :
    alookup (aupdate f m k) j = alookup m j := by
  induction m with
  | nil => simp [alookup, aupdate]
  | cons kv t ih =>
      obtain ⟨ka, v⟩ := kv
      by_cases hk : ka = k
      · subst hk
        have hkj : ka ≠ j := h
        simp [alookup, aupdate, hkj, if_pos rfl]
      · by_cases hj : ka = j
        · subst hj
          simp [alookup, aupdate, hk]
        · simp [alookup, aupdate, hk, hj, ih]

theorem keysOf_aupdate {α : Type} (f : α → α) (m : List (String × α)) (k : String) :
    keysOf (aupdate f m k) = keysOf m := by
  induction m with
  | nil => simp [keysOf, aupdate]
  | cons kv t ih =>
      obtain ⟨ka, v⟩ := kv
      by_cases h : ka = k <;> simp_all [keysOf, aupdate, h]

theorem keysOf_cons {α : Type} (ka : String) (v : α) (t : List (String × α)) :
    keysOf ((ka, v) :: t) = ka :: keysOf t := rfl

theorem alookup_eq_none_iff {α : Type} (m : List (String × α)) (k : String) :
    alookup m k = none ↔ k ∉ keysOf m := by
  induction m with
  | nil => simp [alookup, keysOf]
  | cons kv t ih =>
      obtain ⟨ka, v⟩ := kv
      by_cases h : ka = k
      · subst h
        simp [alookup, keysOf]
      · have hks : k ≠ ka := fun he => h he.symm
        simp [alookup, keysOf_cons, h, ih, List.mem_cons, hks]

theorem alookup_of_mem_nodup {α : Type} (m : List (String × α)) (k : String) (v : α) :
    (keysOf m).Nodup → (k, v) ∈ m → alookup m k = some v := by
  induction m with
  | nil => intro _ hm; simp at hm
  | cons kv t ih =>
      intro hnd hm
      obtain ⟨ka, w⟩ := kv
      rw [keysOf_cons, List.nodup_cons] at hnd
      rcases List.mem_cons.mp hm with h | h
      · have h1 : k = ka := congrArg Prod.fst h
        have h2 : v = w := congrArg Prod.snd h
        subst h1
        subst h2
        simp [alookup]
      · have hk : ka ≠ k := by
          intro he
          subst he
          exact hnd.1 (List.mem_map.mpr ⟨(ka, v), h, rfl⟩)
        simp [alookup, hk, ih hnd.2 h]

/-! ## Rollup loop characterization -/

theorem procsAt_cons (p : ProcReading) (t : List ProcReading) (k : String) :
    procsAt (p :: t) k = if keyOfProc p = k then p :: procsAt t k else procsAt t k := by
  by_cases h : keyOfProc p = k <;> simp [procsAt, List.filter_cons, h]

theorem rollupOf_cons_of_ne (p : ProcReading) (t : List ProcReading) (k : String)
    (h : ¬ keyOfProc p = k) : rollupOf (p :: t) k = rollupOf t k := by
  simp [rollupOf, List.find?_cons, h, cntAt, memAt, utilAt, procsAt_cons]

theorem bumpBy_zero (r : Rollup) : bumpBy r 0 0 0 = r := by
  cases r
  simp [bumpBy]

theorem alookup_rollupStep_self (m : List (String × Rollup)) (p : ProcReading) :
    alookup (rollupStep m p) (keyOfProc p) =
      some (rollupAdd p
        (match alookup m (keyOfProc p) with
         | some r => r
         | none =>
             rollupInit (pyOr p.container_id "Host") (pyOr p.container_name "Host System")
               p.gpu_index)) := by
  unfold rollupStep keyOfProc
  cases hm : alookup m (rollupKey (pyOr p.container_id "Host") p.gpu_index) with
  | some r => simp [alookup_aupdate_self, hm]
  | none => simp [alookup_aupdate_self, alookup_append, hm, alookup]

theorem alookup_rollupStep_of_ne (m : List (String × Rollup)) (p : ProcReading)
    (k : String) (h : ¬ keyOfProc p = k) :
    alookup (rollupStep m p) k = alookup m k := by
  unfold rollupStep
  have hne : rollupKey (pyOr p.container_id "Host") p.gpu_index ≠ k := h
  cases hm : alookup m (rollupKey (pyOr p.container_id "Host") p.gpu_index) with
  | some r => simp [alookup_aupdate_of_ne _ _ _ _ hne, hm]
  | none =>
      simp only [hm]
      rw [alookup_aupdate_of_ne _ _ _ _ hne, alookup_append]
      cases hk : alookup m k <;> simp [alookup, hne, Ne.symm hne]

theorem rollups_fold_lookup (ps : List ProcReading) :
    ∀ (m : List (String × Rollup)) (k : String),
      alookup (ps.foldl rollupStep m) k =
        match alookup m k with
        | some r => some (bumpBy r (cntAt ps k) (memAt ps k) (utilAt ps k))
        | none => rollupOf ps k := by
  induction ps with
  | nil =>
      intro m k
      cases hm : alookup m k <;>
        simp [cntAt, memAt, utilAt, procsAt, rollupOf, hm, bumpBy_zero]
  | cons p t ih =>
      intro m k
      show alookup (t.foldl rollupStep (rollupStep m p)) k = _
      rw [ih]
      by_cases hk : keyOfProc p = k
      · subst hk
        rw [alookup_rollupStep_self]
        have hcnt : cntAt (p :: t) (keyOfProc p) = cntAt t (keyOfProc p) + 1 := by
          simp [cntAt, procsAt_cons]
        have hmem : memAt (p :: t) (keyOfProc p) = p.gpu_memory + memAt t (keyOfProc p) := by
          simp [memAt, procsAt_cons]
        have hutl : utilAt (p :: t) (keyOfProc p) =
            p.gpu_utilization.getD 0 + utilAt t (keyOfProc p) := by
          simp [utilAt, procsAt_cons]
        cases hm : alookup m (keyOfProc p) with
        | some r =>
            simp only [hm, hcnt, hmem, hutl]
            cases r with
            | mk ci cn gi pc tm gu =>
                cases hu : p.gpu_utilization <;>
                  simp [bumpBy, rollupAdd, hu, Option.getD] <;> omega
        | none =>
            simp only [hm, rollupOf, List.find?_cons, decide_eq_true_eq, if_pos rfl]
            simp only [hcnt, hmem, hutl]
            cases hu : p.gpu_utilization <;>
              simp [bumpBy, rollupAdd, rollupInit, hu, Option.getD] <;> omega
      · rw [alookup_rollupStep_of_ne m p k hk]
        have hcnt : cntAt (p :: t) k = cntAt t k := by simp [cntAt, procsAt_cons, hk]
        have hmem : memAt (p :: t) k = memAt t k := by simp [memAt, procsAt_cons, hk]
        have hutl : utilAt (p :: t) k = utilAt t k := by simp [utilAt, procsAt_cons, hk]
        rw [hcnt, hmem, hutl, rollupOf_cons_of_ne p t k hk]

theorem keysOf_append {α : Type} (m m2 : List (String × α)) :
    keysOf (m ++ m2) = keysOf m ++ keysOf m2 := by
  simp [keysOf]

theorem rollupStep_keys_nodup (m : List (String × Rollup)) (p : ProcReading)
    (h : (keysOf m).Nodup) : (keysOf (rollupStep m p)).Nodup := by
  simp only [rollupStep]
  cases hm : alookup m (rollupKey (pyOr p.container_id "Host") p.gpu_index) with
  | some r =>
      simp only [hm]
      simpa [keysOf_aupdate] using h
  | none =>
      simp only [hm]
      rw [keysOf_aupdate, keysOf_append]
      have hnotin := (alookup_eq_none_iff m _).mp hm
      refine List.Nodup.append h (List.nodup_singleton _) ?_
      intro a ha hb
      simp [keysOf] at hb
      subst hb
      exact hnotin ha

theorem rollups_keys_nodup (ps : List ProcReading) :
    ∀ m : List (String × Rollup),
      (keysOf m).Nodup → (keysOf (ps.foldl rollupStep m)).Nodup := by
  induction ps with
  | nil => intro m h; exact h
  | cons p t ih =>
      intro m h
      exact ih (rollupStep m p) (rollupStep_keys_nodup m p h)

theorem sumCounts_append (m m2 : List (String × Rollup)) :
    sumCounts (m ++ m2) = sumCounts m + sumCounts m2 := by
  simp [sumCounts]

theorem sumCounts_aupdate_add (p : ProcReading) (m : List (String × Rollup))
    (k : String) (v : Rollup) :
    alookup m k = some v →
      sumCounts (aupdate (rollupAdd p) m k) = sumCounts m + 1 := by
  induction m with
  | nil => intro h; simp [alookup] at h
  | cons kv t ih =>
      intro h
      obtain ⟨ka, w⟩ := kv
      by_cases hk : ka = k
      · subst hk
        simp [alookup] at h
        subst h
        simp [aupdate, sumCounts, rollupAdd]
        omega
      · rw [alookup, if_neg hk] at h
        simp [aupdate, hk, sumCounts] at *
        rw [ih h]
        omega

theorem sumCounts_rollupStep (m : List (String × Rollup)) (p : ProcReading) :
    sumCounts (rollupStep m p) = sumCounts m + 1 := by
  simp only [rollupStep]
  cases hm : alookup m (rollupKey (pyOr p.container_id "Host") p.gpu_index) with
  | some r =>
      simp only [hm]
      exact sumCounts_aupdate_add p m _ r hm
  | none =>
      simp only [hm]
      have h2 : alookup (m ++ [(rollupKey (pyOr p.container_id "Host") p.gpu_index,
          rollupInit (pyOr p.container_id "Host") (pyOr p.container_name "Host System")
            p.gpu_index)]) (rollupKey (pyOr p.container_id "Host") p.gpu_index) =
          some (rollupInit (pyOr p.container_id "Host")
            (pyOr p.container_name "Host System") p.gpu_index) := by
        rw [alookup_append, hm]
        simp [alookup]
      rw [sumCounts_aupdate_add p _ _ _ h2, sumCounts_append]
      simp [sumCounts, rollupInit]

theorem sumCounts_fold (ps : List ProcReading) :
    ∀ m : List (String × Rollup),
      sumCounts (ps.foldl rollupStep m) = sumCounts m + ps.length := by
  induction ps with
  | nil => intro m; simp
  | cons p t ih =>
      intro m
      show sumCounts (t.foldl rollupStep (rollupStep m p)) = _
      rw [ih, sumCounts_rollupStep]
      simp
      omega

/-! ## Multi-GPU loop characterization -/

theorem gpusOf_cons_pos (p : ProcReading) (t : List ProcReading) (cid : String)
    (h : attrB cid p = true) :
    gpusOf (p :: t) cid = insert p.gpu_index (gpusOf t cid) := by
  simp [gpusOf, List.filter_cons, h]

theorem gpusOf_cons_neg (p : ProcReading) (t : List ProcReading) (cid : String)
    (h : ¬ attrB cid p = true) :
    gpusOf (p :: t) cid = gpusOf t cid := by
  simp [gpusOf, List.filter_cons, h]

theorem mg_fold_gpus (ps : List ProcReading) :
    ∀ (ns : List (String × Option String)) (cs : List (String × Finset Nat)) (cid : String),
      alookup (ps.foldl mgStep (ns, cs)).2 cid =
        match alookup cs cid with
        | some sset => some (sset ∪ gpusOf ps cid)
        | none => if ps.any (attrB cid) then some (gpusOf ps cid) else none := by
  induction ps with
  | nil =>
      intro ns cs cid
      cases hm : alookup cs cid <;> simp [hm, gpusOf]
  | cons p t ih =>
      intro ns cs cid
      show alookup (t.foldl mgStep (mgStep (ns, cs) p)).2 cid = _
      rcases hp : p.container_id with _ | pc
      · have hstep : mgStep (ns, cs) p = (ns, cs) := by simp [mgStep, hp]
        have ha : attrB cid p = false := by simp [attrB, hp]
        rw [hstep, ih ns cs cid]
        simp [List.any_cons, ha, gpusOf_cons_neg p t cid (by simp [ha])]
      · by_cases hpc : pc = ""
        · subst hpc
          have hstep : mgStep (ns, cs) p = (ns, cs) := by simp [mgStep, hp]
          have ha : attrB cid p = false := by
            simp only [attrB, hp, decide_eq_false_iff_not]
            rintro ⟨h1, h2⟩
            exact h2 (by injection h1.symm)
          rw [hstep, ih ns cs cid]
          simp [List.any_cons, ha, gpusOf_cons_neg p t cid (by simp [ha])]
        · by_cases hcid : pc = cid
          · subst hcid
            have ha : attrB pc p = true := by simp [attrB, hp, hpc]
            have hgp := gpusOf_cons_pos p t pc ha
            cases hm : alookup cs pc with
            | some sset =>
                have hstep : (mgStep (ns, cs) p).2 =
                    aupdate (fun s2 => insert p.gpu_index s2) cs pc := by
                  simp [mgStep, hp, hpc, hm]
                have hlook : alookup (mgStep (ns, cs) p).2 pc =
                    some (insert p.gpu_index sset) := by
                  rw [hstep, alookup_aupdate_self, hm]
                  rfl
                have := ih (mgStep (ns, cs) p).1 (mgStep (ns, cs) p).2 pc
                rw [Prod.mk.eta] at this
                rw [this, hlook]
                simp [hm, hgp, Finset.insert_union, Finset.union_insert]
            | none =>
                have hstep : (mgStep (ns, cs) p).2 =
                    aupdate (fun s2 => insert p.gpu_index s2)
                      (cs ++ [(pc, (∅ : Finset Nat))]) pc := by
                  simp [mgStep, hp, hpc, hm]
                have hlook : alookup (mgStep (ns, cs) p).2 pc =
                    some (insert p.gpu_index (∅ : Finset Nat)) := by
                  rw [hstep, alookup_aupdate_self, alookup_append, hm]
                  simp [alookup]
                have := ih (mgStep (ns, cs) p).1 (mgStep (ns, cs) p).2 pc
                rw [Prod.mk.eta] at this
                rw [this, hlook]
                simp [hm, hgp, List.any_cons, ha, Finset.insert_union,
                  Finset.insert_eq]
          · have ha : attrB cid p = false := by
              simp only [attrB, hp, decide_eq_false_iff_not]
              rintro ⟨h1, h2⟩
              exact hcid (by injection h1)
            have hlook : alookup (mgStep (ns, cs) p).2 cid = alookup cs cid := by
              cases hm : alookup cs pc with
              | some sset =>
                  have hstep : (mgStep (ns, cs) p).2 =
                      aupdate (fun s2 => insert p.gpu_index s2) cs pc := by
                    simp [mgStep, hp, hpc, hm]
                  rw [hstep, alookup_aupdate_of_ne _ _ _ _ hcid]
              | none =>
                  have hstep : (mgStep (ns, cs) p).2 =
                      aupdate (fun s2 => insert p.gpu_index s2)
                        (cs ++ [(pc, (∅ : Finset Nat))]) pc := by
                    simp [mgStep, hp, hpc, hm]
                  rw [hstep, alookup_aupdate_of_ne _ _ _ _ hcid, alookup_append]
                  cases hc2 : alookup cs cid <;> simp [alookup, hcid, hc2]
            have := ih (mgStep (ns, cs) p).1 (mgStep (ns, cs) p).2 cid
            rw [Prod.mk.eta] at this
            rw [this, hlook]
            simp [List.any_cons, ha, gpusOf_cons_neg p t cid (by simp [ha])]

theorem mg_fold_names (ps : List ProcReading) :
    ∀ (ns : List (String × Option String)) (cs : List (String × Finset Nat)) (cid : String),
      alookup (ps.foldl mgStep (ns, cs)).1 cid =
        match alookup ns cid with
        | some v => some v
        | none => (ps.find? (attrB cid)).map (fun p => p.container_name) := by
  induction ps with
  | nil =>
      intro ns cs cid
      cases hm : alookup ns cid <;> simp [hm]
  | cons p t ih =>
      intro ns cs cid
      show alookup (t.foldl mgStep (mgStep (ns, cs) p)).1 cid = _
      rcases hp : p.container_id with _ | pc
      · have hstep : mgStep (ns, cs) p = (ns, cs) := by simp [mgStep, hp]
        have ha : attrB cid p = false := by simp [attrB, hp]
        rw [hstep, ih ns cs cid]
        simp [List.find?_cons, ha]
      · by_cases hpc : pc = ""
        · subst hpc
          have hstep : mgStep (ns, cs) p = (ns, cs) := by simp [mgStep, hp]
          have ha : attrB cid p = false := by
            simp only [attrB, hp, decide_eq_false_iff_not]
            rintro ⟨h1, h2⟩
            exact h2 (by injection h1.symm)
          rw [hstep, ih ns cs cid]
          simp [List.find?_cons, ha]
        · by_cases hcid : pc = cid
          · subst hcid
            have ha : attrB pc p = true := by simp [attrB, hp, hpc]
            cases hm : alookup ns pc with
            | some v =>
                have hstep1 : (mgStep (ns, cs) p).1 = ns := by
                  simp [mgStep, hp, hpc, hm]
                have := ih (mgStep (ns, cs) p).1 (mgStep (ns, cs) p).2 pc
                rw [Prod.mk.eta] at this
                rw [this, hstep1, hm]
            | none =>
                have hstep1 : (mgStep (ns, cs) p).1 = ns ++ [(pc, p.container_name)] := by
                  simp [mgStep, hp, hpc, hm]
                have hlook : alookup (mgStep (ns, cs) p).1 pc =
                    some p.container_name := by
                  rw [hstep1, alookup_append, hm]
                  simp [alookup]
                have := ih (mgStep (ns, cs) p).1 (mgStep (ns, cs) p).2 pc
                rw [Prod.mk.eta] at this
                rw [this, hlook]
                simp [hm, List.find?_cons, ha]
          · have ha : attrB cid p = false := by
              simp only [attrB, hp, decide_eq_false_iff_not]
              rintro ⟨h1, h2⟩
              exact hcid (by injection h1)
            have hlook : alookup (mgStep (ns, cs) p).1 cid = alookup ns cid := by
              cases hm : alookup ns pc with
              | some v => simp [mgStep, hp, hpc, hm]
              | none =>
                  have hstep1 : (mgStep (ns, cs) p).1 = ns ++ [(pc, p.container_name)] := by
                    simp [mgStep, hp, hpc, hm]
                  rw [hstep1, alookup_append]
                  cases hc2 : alookup ns cid <;> simp [alookup, hcid, hc2]
            have := ih (mgStep (ns, cs) p).1 (mgStep (ns, cs) p).2 cid
            rw [Prod.mk.eta] at this
            rw [this, hlook]
            simp [List.find?_cons, ha]

theorem mgStep_cs_keys_nodup (ns : List (String × Option String))
    (cs : List (String × Finset Nat)) (p : ProcReading)
    (h : (keysOf cs).Nodup) : (keysOf (mgStep (ns, cs) p).2).Nodup := by
  rcases hp : p.container_id with _ | pc
  · simpa [mgStep, hp] using h
  · by_cases hpc : pc = ""
    · subst hpc
      simpa [mgStep, hp] using h
    · cases hm : alookup cs pc with
      | some sset =>
          have hstep : (mgStep (ns, cs) p).2 =
              aupdate (fun s2 => insert p.gpu_index s2) cs pc := by
            simp [mgStep, hp, hpc, hm]
          rw [hstep, keysOf_aupdate]
          exact h
      | none =>
          have hstep : (mgStep (ns, cs) p).2 =
              aupdate (fun s2 => insert p.gpu_index s2)
                (cs ++ [(pc, (∅ : Finset Nat))]) pc := by
            simp [mgStep, hp, hpc, hm]
          rw [hstep, keysOf_aupdate, keysOf_append]
          have hnotin := (alookup_eq_none_iff cs _).mp hm
          refine List.Nodup.append h (List.nodup_singleton _) ?_
          intro a ha hb
          simp [keysOf] at hb
          subst hb
          exact hnotin ha

theorem containerGpus_keys_nodup (ps : List ProcReading) :
    ∀ (ns : List (String × Option String)) (cs : List (String × Finset Nat)),
      (keysOf cs).Nodup → (keysOf (ps.foldl mgStep (ns, cs)).2).Nodup := by
  induction ps with
  | nil => intro ns cs h; exact h
  | cons p t ih =>
      intro ns cs h
      show (keysOf (t.foldl mgStep (mgStep (ns, cs) p)).2).Nodup
      have := ih (mgStep (ns, cs) p).1 (mgStep (ns, cs) p).2
        (mgStep_cs_keys_nodup ns cs p h)
      rwa [Prod.mk.eta] at this

/-! ## Lookup through a key-preserving filterMap -/

theorem alookup_filterMap_key_none {α β : Type} (g : String → α → Option β)
    (m : List (String × α)) (k : String) (h : k ∉ keysOf m) :
    alookup (m.filterMap (fun kv => (g kv.1 kv.2).map (fun b => (kv.1, b)))) k = none := by
  induction m with
  | nil => simp [alookup]
  | cons kv t ih =>
      obtain ⟨ka, v⟩ := kv
      rw [keysOf_cons, List.mem_cons] at h
      push_neg at h
      cases hg : g ka v with
      | none => simpa [List.filterMap_cons, hg] using ih h.2
      | some b =>
          have hka : ka ≠ k := fun he => h.1 he.symm
          simp [List.filterMap_cons, hg, alookup, hka, ih h.2]

theorem alookup_filterMap_key {α β : Type} (g : String → α → Option β)
    (m : List (String × α)) (k : String) (hnd : (keysOf m).Nodup) :
    alookup (m.filterMap (fun kv => (g kv.1 kv.2).map (fun b => (kv.1, b)))) k =
      (alookup m k).bind (g k) := by
  induction m with
  | nil => simp [alookup]
  | cons kv t ih =>
      obtain ⟨ka, v⟩ := kv
      rw [keysOf_cons, List.nodup_cons] at hnd
      by_cases hka : ka = k
      · subst hka
        cases hg : g ka v with
        | some b => simp [List.filterMap_cons, hg, alookup]
        | none =>
            have hnone := alookup_filterMap_key_none g t ka hnd.1
            simp [List.filterMap_cons, hg, alookup, hnone]
      · cases hg : g ka v with
        | none => simp [List.filterMap_cons, hg, alookup, hka, ih hnd.2]
        | some b => simp [List.filterMap_cons, hg, alookup, hka, ih hnd.2]

theorem multiGpu_eq_filterMap (ps : List ProcReading) :
    multiGpu ps =
      (containerGpus ps).filterMap (fun cS =>
        ((fun k sset => if 1 < Finset.card sset
            then some (⟨sset, mgName ps k⟩ : MultiGpuEntry) else none) cS.1 cS.2).map
          (fun b => (cS.1, b))) := by
  unfold multiGpu
  apply List.filterMap_congr
  intro cS _
  by_cases h : 1 < cS.2.card <;> simp [h, mgName]

theorem multiGpu_lookup (ps : List ProcReading) (cid : String) :
    alookup (multiGpu ps) cid =
      (alookup (containerGpus ps) cid).bind
        (fun sset => if 1 < sset.card then some ⟨sset, mgName ps cid⟩ else none) := by
  rw [multiGpu_eq_filterMap]
  have hnd : (keysOf (containerGpus ps)).Nodup :=
    containerGpus_keys_nodup ps [] [] (by simp [keysOf])
  exact alookup_filterMap_key
    (fun k sset => if 1 < Finset.card sset
      then some (⟨sset, mgName ps k⟩ : MultiGpuEntry) else none)
    (containerGpus ps) cid hnd

/-! ## Cache behavior lemmas -/

theorem collect_data_cached (resolver : Nat → Option ContainerInfo)
    (telemetry : Except String RawData) (now interval : Nat) (s : CacheState)
    (d : Snapshot) (h1 : s.last_data = some d)
    (h2 : now - s.last_update_time < interval) :
    collect_data resolver telemetry now interval s = (d, s, false) := by
  simp [collect_data, h1, h2]

theorem collect_data_build (resolver : Nat → Option ContainerInfo)
    (telemetry : Except String RawData) (now interval : Nat) (s : CacheState)
    (h : ¬(now - s.last_update_time < interval ∧ s.last_data.isSome = true)) :
    collect_data resolver telemetry now interval s =
      collect_build resolver telemetry now s := by
  cases hd : s.last_data with
  | none => simp [collect_data, hd]
  | some d =>
      have hlt : ¬ now - s.last_update_time < interval := by
        intro hlt
        exact h ⟨hlt, by simp [hd]⟩
      simp [collect_data, hd, hlt]

theorem collect_build_called (resolver : Nat → Option ContainerInfo)
    (telemetry : Except String RawData) (now : Nat) (s : CacheState) :
    (collect_build resolver telemetry now s).2.2 = true := by
  cases telemetry <;> rfl

theorem collect_build_cacheOK (resolver : Nat → Option ContainerInfo)
    (telemetry : Except String RawData) (now : Nat) (s : CacheState)
    (hs : ∀ d, s.last_data = some d → d.error = none) :
    ∀ d, (collect_build resolver telemetry now s).2.1.last_data = some d →
      d.error = none := by
  intro d hd
  cases telemetry with
  | error msg =>
      exact hs d hd
  | ok raw =>
      simp [collect_build] at hd
      rw [← hd]
      rfl

theorem collect_data_cacheOK (resolver : Nat → Option ContainerInfo)
    (telemetry : Except String RawData) (now interval : Nat) (s : CacheState)
    (hs : ∀ d, s.last_data = some d → d.error = none) :
    ∀ d, (collect_data resolver telemetry now interval s).2.1.last_data = some d →
      d.error = none := by
  intro d hd
  cases hdata : s.last_data with
  | some d0 =>
      by_cases hlt : now - s.last_update_time < interval
      · rw [collect_data_cached resolver telemetry now interval s d0 hdata hlt] at hd
        exact hs d hd
      · have hb : collect_data resolver telemetry now interval s =
            collect_build resolver telemetry now s := by
          simp [collect_data, hdata, hlt]
        rw [hb] at hd
        exact collect_build_cacheOK resolver telemetry now s hs d hd
  | none =>
      have hb : collect_data resolver telemetry now interval s =
          collect_build resolver telemetry now s := by
        simp [collect_data, hdata]
      rw [hb] at hd
      exact collect_build_cacheOK resolver telemetry now s hs d hd

theorem runCalls_cons (resolver : Nat → Option ContainerInfo) (interval : Nat)
    (s : CacheState) (now : Nat) (tel : Except String RawData)
    (rest : List (Nat × Except String RawData)) :
    runCalls resolver interval s ((now, tel) :: rest) =
      (((collect_data resolver tel now interval s).1,
        (collect_data resolver tel now interval s).2.2) ::
        (runCalls resolver interval
          (collect_data resolver tel now interval s).2.1 rest).1,
       (runCalls resolver interval
          (collect_data resolver tel now interval s).2.1 rest).2) := rfl

theorem runCalls_fresh (resolver : Nat → Option ContainerInfo) (interval : Nat)
    (d : Snapshot) (T t : Nat) (tel : Except String RawData) (n : Nat)
    (h : t - T < interval) :
    runCalls resolver interval ⟨some d, T⟩ (List.replicate n (t, tel)) =
      (List.replicate n (d, false), ⟨some d, T⟩) := by
  induction n with
  | zero => rfl
  | succ m ih =>
      have hc := collect_data_cached resolver tel t interval ⟨some d, T⟩ d rfl h
      rw [List.replicate_succ, runCalls_cons, hc, ih]
      simp [List.replicate_succ]

theorem runCalls_error_free (resolver : Nat → Option ContainerInfo) (interval : Nat) :
    ∀ (inputs : List (Nat × Except String RawData)) (s : CacheState),
      (∀ d, s.last_data = some d → d.error = none) →
      ∀ rb ∈ (runCalls resolver interval s inputs).1,
        rb.2 = false → rb.1.error = none := by
  intro inputs
  induction inputs with
  | nil =>
      intro s hs rb hrb
      simp [runCalls] at hrb
  | cons x rest ih =>
      intro s hs rb hrb hfalse
      obtain ⟨now, tel⟩ := x
      rw [runCalls_cons] at hrb
      rcases List.mem_cons.mp hrb with he | he
      · subst he
        cases hdata : s.last_data with
        | some d0 =>
            by_cases hlt : now - s.last_update_time < interval
            · rw [collect_data_cached resolver tel now interval s d0 hdata hlt]
              exact hs d0 hdata
            · have hb : collect_data resolver tel now interval s =
                  collect_build resolver tel now s := by
                simp [collect_data, hdata, hlt]
              rw [hb, collect_build_called] at hfalse
              exact absurd hfalse (by simp)
        | none =>
            have hb : collect_data resolver tel now interval s =
                collect_build resolver tel now s := by
              simp [collect_data, hdata]
            rw [hb, collect_build_called] at hfalse
            exact absurd hfalse (by simp)
      · exact ih (collect_data resolver tel now interval s).2.1
          (collect_data_cacheOK resolver tel now interval s hs) rb he hfalse

/-! ## Builder output characterizations at top level -/

theorem statsAt_build (resolver : Nat → Option ContainerInfo) (raw : RawData)
    (now : Nat) (k : String) :
    statsAt (build_snapshot resolver raw now) k =
      if ∃ p ∈ raw.processes.map (annotate resolver), keyOfProc p = k
      then some (cntAt (raw.processes.map (annotate resolver)) k,
                 memAt (raw.processes.map (annotate resolver)) k,
                 utilAt (raw.processes.map (annotate resolver)) k)
      else none := by
  have hchar := rollups_fold_lookup (raw.processes.map (annotate resolver)) [] k
  simp only [alookup] at hchar
  show (alookup (rollups (raw.processes.map (annotate resolver))) k).map _ = _
  rw [show rollups (raw.processes.map (annotate resolver)) =
      (raw.processes.map (annotate resolver)).foldl rollupStep [] from rfl, hchar]
  unfold rollupOf
  cases hf : List.find? (fun p => keyOfProc p = k) (raw.processes.map (annotate resolver)) with
  | none =>
      have hne : ¬ ∃ p ∈ raw.processes.map (annotate resolver), keyOfProc p = k := by
        rintro ⟨p, hp1, hp2⟩
        have := List.find?_eq_none.mp hf p hp1
        simp [hp2] at this
      rw [if_neg hne]
      rfl
  | some p0 =>
      have hmem := List.mem_of_find?_eq_some hf
      have hkey : keyOfProc p0 = k := by
        have := List.find?_some hf
        simpa using this
      have hex : ∃ p ∈ raw.processes.map (annotate resolver), keyOfProc p = k :=
        ⟨p0, hmem, hkey⟩
      rw [if_pos hex]
      simp [bumpBy, rollupInit]

theorem gpusAt_build (resolver : Nat → Option ContainerInfo) (raw : RawData)
    (now : Nat) (cid : String) :
    gpusAt (build_snapshot resolver raw now) cid =
      if 1 < (gpusOf (raw.processes.map (annotate resolver)) cid).card
      then some (gpusOf (raw.processes.map (annotate resolver)) cid)
      else none := by
  show (alookup (multiGpu (raw.processes.map (annotate resolver))) cid).map _ = _
  rw [multiGpu_lookup]
  have hcs := mg_fold_gpus (raw.processes.map (annotate resolver)) [] [] cid
  rw [show containerGpus (raw.processes.map (annotate resolver)) =
      ((raw.processes.map (annotate resolver)).foldl mgStep ([], [])).2 from rfl, hcs]
  simp only [alookup]
  cases hany : (raw.processes.map (annotate resolver)).any (attrB cid) with
  | false =>
      have hall : ∀ p ∈ raw.processes.map (annotate resolver), ¬ attrB cid p = true := by
        intro p hp hc
        have := List.any_eq_true.mpr ⟨p, hp, hc⟩
        rw [hany] at this
        exact absurd this (by simp)
      have hnil : (raw.processes.map (annotate resolver)).filter (attrB cid) = [] :=
        List.filter_eq_nil_iff.mpr hall
      have hcard : (gpusOf (raw.processes.map (annotate resolver)) cid).card = 0 := by
        simp [gpusOf, hnil]
      simp [hcard]
  | true =>
      by_cases hcard : 1 < (gpusOf (raw.processes.map (annotate resolver)) cid).card <;>
        simp [hcard]

theorem resPlain_ids_ne : ∀ pid info, resPlain pid = some info → info.id ≠ "" := by
  intro pid info h
  simp only [resPlain] at h
  by_cases h1 : pid = 100
  · rw [if_pos h1] at h
    injection h with h
    subst h
    decide
  · by_cases h2 : pid = 200
    · rw [if_neg h1, if_pos h2] at h
      injection h with h
      subst h
      decide
    · rw [if_neg h1, if_neg h2] at h
      exact absurd h (by simp)

/-! ## Claim theorems -/

/-- Claim C1, counterexample: starting from the empty cache with interval 5,
a failing build at t=3 is followed one second later (t=4, well inside the
staleness window of both the stored `last_update_time` 0 and the failed
attempt time 3) by another telemetry invocation, and the failure left both
cache variables untouched — the error snapshot did not update the last
build time and the retry was not suppressed. -/
theorem c1_counterexample :
    ((runCalls noResolver 5 ⟨none, 0⟩
        [(3, Except.error "telemetry down"), (4, Except.error "telemetry down")]).1.map
      (fun rb => (rb.1.timestamp, rb.2)) = [(3, true), (4, true)])
    ∧ (runCalls noResolver 5 ⟨none, 0⟩
        [(3, Except.error "telemetry down"), (4, Except.error "telemetry down")]).2 =
      ⟨none, 0⟩ := by
  constructor <;> rfl

/-- Claim C1 (amended): a failed build returns the error Snapshot but does
NOT update the cache — neither `last_data` nor `last_update_time` changes —
so, in particular, after a failure on an empty cache every later call
re-invokes telemetry no matter how little time has passed (the retry rate
is not bounded to once per interval). -/
theorem c1_amended (resolver : Nat → Option ContainerInfo) (msg : String)
    (now interval : Nat) (s : CacheState)
    (h : ¬(now - s.last_update_time < interval ∧ s.last_data.isSome = true)) :
    collect_data resolver (Except.error msg) now interval s =
      (errorSnapshot now msg, s, true)
    ∧ (s.last_data = none →
        ∀ t2 : Nat,
          (collect_data resolver (Except.error msg) t2 interval s).2.2 = true) := by
  constructor
  · rw [collect_data_build resolver (Except.error msg) now interval s h]
    rfl
  · intro hnone t2
    have hb : collect_data resolver (Except.error msg) t2 interval s =
        collect_build resolver (Except.error msg) t2 s := by
      simp [collect_data, hnone]
    rw [hb]
    rfl

theorem c1_witness :
    (¬((3:Nat) - (⟨none, 0⟩ : CacheState).last_update_time < 5 ∧
        (⟨none, 0⟩ : CacheState).last_data.isSome = true))
    ∧ (collect_data noResolver (Except.error "down") 3 5 ⟨none, 0⟩ =
        (errorSnapshot 3 "down", ⟨none, 0⟩, true)
      ∧ ((⟨none, 0⟩ : CacheState).last_data = none →
          ∀ t2 : Nat,
            (collect_data noResolver (Except.error "down") t2 5 ⟨none, 0⟩).2.2 = true)) :=
  ⟨by decide, c1_amended noResolver "down" 3 5 ⟨none, 0⟩ (by decide)⟩

/-- Claim C2, counterexample: the server is threaded and `collect_data`
takes no lock, so two requests at t=10 and t=11 over a cache last built at
t=0 (stale for interval 5) can both pass the staleness check of line 124
before either build installs its result; the schedule
check/check/build/build yields TWO telemetry invocations and the two
callers receive snapshots with different timestamps (10 and 11), refuting
"exactly one capture, all callers see the same timestamp". -/
theorem c2_counterexample :
    (runSched noResolver (Except.ok rawPair) 5 concInit [0, 1, 0, 1]).calls = 2
    ∧ (runSched noResolver (Except.ok rawPair) 5 concInit [0, 1, 0, 1]).threads.map
        phaseTimestamp = [some 10, some 11] := by
  constructor <;> rfl

/-- Claim C2 (amended): when the calls are serialized (each request
completes before the next begins, as in a single-threaded execution), N
calls at the same time t over a stale or empty cache with a succeeding
telemetry source perform exactly one telemetry invocation (the first
call's) and every caller receives the very snapshot built at time t. -/
theorem c2_amended (resolver : Nat → Option ContainerInfo) (raw : RawData)
    (interval t n : Nat) (s : CacheState)
    (hstale : ¬(t - s.last_update_time < interval ∧ s.last_data.isSome = true))
    (hI : 0 < interval) (hn : 0 < n) :
    ((runCalls resolver interval s (List.replicate n (t, Except.ok raw))).1.countP
        (fun rb => rb.2) = 1)
    ∧ ∀ rb ∈ (runCalls resolver interval s (List.replicate n (t, Except.ok raw))).1,
        rb.1 = build_snapshot resolver raw t := by
  obtain ⟨m, rfl⟩ : ∃ m, n = m + 1 := ⟨n - 1, by omega⟩
  have hb : collect_data resolver (Except.ok raw) t interval s =
      (build_snapshot resolver raw t,
       ⟨some (build_snapshot resolver raw t), t⟩, true) := by
    rw [collect_data_build resolver (Except.ok raw) t interval s hstale]
    rfl
  have hrest := runCalls_fresh resolver interval (build_snapshot resolver raw t) t t
    (Except.ok raw) m (by omega)
  have hstep : runCalls resolver interval s
      (List.replicate (m + 1) (t, Except.ok raw)) =
      ((build_snapshot resolver raw t, true) ::
        List.replicate m (build_snapshot resolver raw t, false),
       ⟨some (build_snapshot resolver raw t), t⟩) := by
    rw [List.replicate_succ, runCalls_cons, hb, hrest]
  rw [hstep]
  constructor
  · have hz : ∀ mm : Nat,
        (List.replicate mm (build_snapshot resolver raw t, false)).countP
          (fun rb => rb.2) = 0 := by
      intro mm
      induction mm with
      | zero => rfl
      | succ mk ihk =>
          rw [List.replicate_succ]
          simp [List.countP_cons, ihk]
    simp [List.countP_cons, hz]
  · intro rb hrb
    rcases List.mem_cons.mp hrb with he | he
    · rw [he]
    · rw [List.eq_of_mem_replicate he]

theorem c2_witness :
    (¬((7:Nat) - (⟨none, 0⟩ : CacheState).last_update_time < 5 ∧
        (⟨none, 0⟩ : CacheState).last_data.isSome = true))
    ∧ (0:Nat) < 5 ∧ (0:Nat) < 3
    ∧ (((runCalls resPlain 5 ⟨none, 0⟩ (List.replicate 3 (7, Except.ok rawPair))).1.countP
          (fun rb => rb.2) = 1)
      ∧ ∀ rb ∈ (runCalls resPlain 5 ⟨none, 0⟩
            (List.replicate 3 (7, Except.ok rawPair))).1,
          rb.1 = build_snapshot resPlain rawPair 7) :=
  ⟨by decide, by decide, by decide,
    c2_amended resPlain rawPair 5 7 3 ⟨none, 0⟩ (by decide) (by decide) (by decide)⟩

/-- Claim C3, counterexample: from the empty cache with interval 5 and a
failing telemetry source, two calls at t=1 and t=2 — the second within the
staleness window of both the cache's `last_update_time` (2-0 < 5) and the
first build attempt (2-1 < 5) — each invoke telemetry and return snapshots
with different timestamps, refuting "the second call returns the identical
Snapshot and performs no second capture". -/
theorem c3_counterexample :
    (runCalls noResolver 5 ⟨none, 0⟩
        [(1, Except.error "capture failed"), (2, Except.error "capture failed")]).1.map
      (fun rb => (rb.1.timestamp, rb.2)) = [(1, true), (2, true)] := by
  rfl

/-- Claim C3 (amended): if the first call's snapshot is the one held in the
cache afterwards (that is, the call was served from cache or its build
succeeded — after a FAILED build the cache is not updated and the property
fails), then a second call within the refresh interval of the cache's
build time returns exactly the first call's Snapshot, leaves the state
unchanged and performs no telemetry invocation. -/
theorem c3_amended (resolver : Nat → Option ContainerInfo)
    (tel1 tel2 : Except String RawData) (t1 t2 interval : Nat) (s : CacheState)
    (h1 : (collect_data resolver tel1 t1 interval s).2.1.last_data =
          some (collect_data resolver tel1 t1 interval s).1)
    (h2 : t2 - (collect_data resolver tel1 t1 interval s).2.1.last_update_time <
          interval) :
    collect_data resolver tel2 t2 interval
        (collect_data resolver tel1 t1 interval s).2.1 =
      ((collect_data resolver tel1 t1 interval s).1,
       (collect_data resolver tel1 t1 interval s).2.1, false) :=
  collect_data_cached resolver tel2 t2 interval
    (collect_data resolver tel1 t1 interval s).2.1
    (collect_data resolver tel1 t1 interval s).1 h1 h2

theorem c3_witness :
    ((collect_data resPlain (Except.ok rawPair) 10 5 ⟨none, 0⟩).2.1.last_data =
      some (collect_data resPlain (Except.ok rawPair) 10 5 ⟨none, 0⟩).1)
    ∧ ((12:Nat) -
        (collect_data resPlain (Except.ok rawPair) 10 5 ⟨none, 0⟩).2.1.last_update_time
        < 5)
    ∧ collect_data resPlain (Except.ok rawPair) 12 5
        (collect_data resPlain (Except.ok rawPair) 10 5 ⟨none, 0⟩).2.1 =
      ((collect_data resPlain (Except.ok rawPair) 10 5 ⟨none, 0⟩).1,
       (collect_data resPlain (Except.ok rawPair) 10 5 ⟨none, 0⟩).2.1, false) :=
  ⟨rfl, by decide,
    c3_amended resPlain (Except.ok rawPair) (Except.ok rawPair) 10 12 5 ⟨none, 0⟩
      rfl (by decide)⟩

/-- Claim C4: in every successful build, no rollup entry has a zero
process count, and the process counts over all rollup entries sum to the
length of the snapshot's process list. -/
theorem c4_rollup_counts (resolver : Nat → Option ContainerInfo) (raw : RawData)
    (now : Nat) :
    (∀ kr ∈ (build_snapshot resolver raw now).container_processes,
        kr.2.process_count ≠ 0)
    ∧ ((build_snapshot resolver raw now).container_processes.map
        (fun kr => kr.2.process_count)).sum =
      (build_snapshot resolver raw now).processes.length := by
  constructor
  · intro kr hkr
    obtain ⟨k, r⟩ := kr
    have hnd : (keysOf (rollups (raw.processes.map (annotate resolver)))).Nodup :=
      rollups_keys_nodup (raw.processes.map (annotate resolver)) [] (by simp [keysOf])
    have hl : alookup (rollups (raw.processes.map (annotate resolver))) k = some r :=
      alookup_of_mem_nodup _ k r hnd hkr
    have hchar := rollups_fold_lookup (raw.processes.map (annotate resolver)) [] k
    simp only [alookup] at hchar
    have hl2 : rollupOf (raw.processes.map (annotate resolver)) k = some r := by
      rw [← hchar]
      exact hl
    unfold rollupOf at hl2
    cases hf : List.find? (fun p => keyOfProc p = k)
        (raw.processes.map (annotate resolver)) with
    | none =>
        rw [hf] at hl2
        exact absurd hl2 (by simp)
    | some p0 =>
        rw [hf] at hl2
        have hr := Option.some.inj hl2
        have hkey : keyOfProc p0 = k := by
          simpa using List.find?_some hf
        have hp0 : p0 ∈ procsAt (raw.processes.map (annotate resolver)) k := by
          simp [procsAt, List.mem_filter, List.mem_of_find?_eq_some hf, hkey]
        have hpos : 0 < cntAt (raw.processes.map (annotate resolver)) k :=
          List.length_pos_of_mem hp0
        rw [← hr]
        simp [bumpBy, rollupInit]
        omega
  · show sumCounts (rollups (raw.processes.map (annotate resolver))) =
      (raw.processes.map (annotate resolver)).length
    rw [show rollups (raw.processes.map (annotate resolver)) =
        (raw.processes.map (annotate resolver)).foldl rollupStep [] from rfl,
      sumCounts_fold]
    simp [sumCounts]

theorem c4_witness :
    (∀ kr ∈ (build_snapshot resPlain rawPair 9).container_processes,
        kr.2.process_count ≠ 0)
    ∧ ((build_snapshot resPlain rawPair 9).container_processes.map
        (fun kr => kr.2.process_count)).sum =
      (build_snapshot resPlain rawPair 9).processes.length :=
  c4_rollup_counts resPlain rawPair 9

/-- Claim C5: in every successful build (with a resolver that never emits
an empty container id, as `get_container_info`'s digit-matched ids cannot
be empty), a container id is a key of the multi-GPU mapping exactly when
the processes attributed to it span at least two distinct GPU indices,
and every stored entry's GPU index set has at least two elements. -/
theorem c5_multi_gpu (resolver : Nat → Option ContainerInfo) (raw : RawData)
    (now : Nat) (hne : ∀ pid info, resolver pid = some info → info.id ≠ "")
    (cid : String) :
    ((alookup (build_snapshot resolver raw now).multi_gpu_containers cid).isSome = true ↔
      2 ≤ (spanSet (build_snapshot resolver raw now).processes cid).card)
    ∧ ∀ e ∈ (build_snapshot resolver raw now).multi_gpu_containers,
        2 ≤ e.2.gpu_indices.card := by
  have hfilters : (raw.processes.map (annotate resolver)).filter (attrB cid) =
      (raw.processes.map (annotate resolver)).filter (spanB cid) := by
    apply List.filter_congr
    intro p hp
    rcases List.mem_map.mp hp with ⟨q, hq, rfl⟩
    cases hres : resolver q.pid with
    | none => simp [attrB, spanB, annotate, hres]
    | some info =>
        have hid : info.id ≠ "" := hne q.pid info hres
        by_cases hc : info.id = cid
        · subst hc
          simp [attrB, spanB, annotate, hres, hid]
        · simp [attrB, spanB, annotate, hres, hc]
  have hgpus : gpusOf (raw.processes.map (annotate resolver)) cid =
      spanSet (raw.processes.map (annotate resolver)) cid := by
    simp [gpusOf, spanSet, hfilters]
  constructor
  · have hga := gpusAt_build resolver raw now cid
    have hiso : (alookup (build_snapshot resolver raw now).multi_gpu_containers
        cid).isSome = (gpusAt (build_snapshot resolver raw now) cid).isSome := by
      simp [gpusAt]
    constructor
    · intro hs2
      rw [hiso, hga] at hs2
      by_cases hcard : 1 < (gpusOf (raw.processes.map (annotate resolver)) cid).card
      · show 2 ≤ (spanSet (raw.processes.map (annotate resolver)) cid).card
        rw [← hgpus]
        exact hcard
      · rw [if_neg hcard] at hs2
        exact absurd hs2 (by simp)
    · intro hcard
      have hcard2 : 1 < (gpusOf (raw.processes.map (annotate resolver)) cid).card := by
        rw [hgpus]
        exact hcard
      rw [hiso, hga, if_pos hcard2]
      rfl
  · intro e he
    have he2 : e ∈ multiGpu (raw.processes.map (annotate resolver)) := he
    rcases List.mem_filterMap.mp he2 with ⟨cS, hcS, hsome⟩
    by_cases hcard : 1 < cS.2.card
    · rw [if_pos hcard] at hsome
      have he3 := Option.some.inj hsome
      rw [← he3]
      exact hcard
    · rw [if_neg hcard] at hsome
      exact absurd hsome (by simp)

theorem c5_witness :
    (∀ pid info, resPlain pid = some info → info.id ≠ "")
    ∧ (((alookup (build_snapshot resPlain rawPair 5).multi_gpu_containers
          "105").isSome = true ↔
        2 ≤ (spanSet (build_snapshot resPlain rawPair 5).processes "105").card)
      ∧ ∀ e ∈ (build_snapshot resPlain rawPair 5).multi_gpu_containers,
          2 ≤ e.2.gpu_indices.card) :=
  ⟨resPlain_ids_ne, c5_multi_gpu resPlain rawPair 5 resPlain_ids_ne "105"⟩

/-- Claim C6: every build in which the telemetry source fails yields the
error snapshot: the `error` field is set to the failure message, the
timestamp is the call time, and the gpu, process, rollup and multi-GPU
collections are all empty (in the source the keys are simply absent from
the error dict). -/
theorem c6_error_snapshot (resolver : Nat → Option ContainerInfo) (msg : String)
    (now : Nat) (s : CacheState) :
    (collect_build resolver (Except.error msg) now s).1.error = some msg
    ∧ (collect_build resolver (Except.error msg) now s).1.gpu_info = []
    ∧ (collect_build resolver (Except.error msg) now s).1.processes = []
    ∧ (collect_build resolver (Except.error msg) now s).1.multi_gpu_containers = []
    ∧ (collect_build resolver (Except.error msg) now s).1.container_processes = []
    ∧ (collect_build resolver (Except.error msg) now s).1.timestamp = now :=
  ⟨rfl, rfl, rfl, rfl, rfl, rfl⟩

/-- Claim C7: in every successful build, a process's `container_id` is
`None` exactly when its `container_name` is `None` — the attribution
fields are set together or absent together. -/
theorem c7_attribution_symmetry (resolver : Nat → Option ContainerInfo)
    (raw : RawData) (now : Nat) :
    ∀ p ∈ (build_snapshot resolver raw now).processes,
      (p.container_id = none ↔ p.container_name = none) := by
  intro p hp
  have hp2 : p ∈ raw.processes.map (annotate resolver) := hp
  rcases List.mem_map.mp hp2 with ⟨q, hq, rfl⟩
  cases h : resolver q.pid <;> simp [annotate, h]

theorem c7_witness :
    ((annotate resPlain (mkProc 100 0 5 (some 10))) ∈
      (build_snapshot resPlain rawPair 4).processes)
    ∧ ((annotate resPlain (mkProc 100 0 5 (some 10))).container_id = none ↔
        (annotate resPlain (mkProc 100 0 5 (some 10))).container_name = none) := by
  have hmem : (annotate resPlain (mkProc 100 0 5 (some 10))) ∈
      (build_snapshot resPlain rawPair 4).processes :=
    List.mem_map.mpr ⟨mkProc 100 0 5 (some 10), List.mem_cons_self _ _, rfl⟩
  exact ⟨hmem, c7_attribution_symmetry resPlain rawPair 4 _ hmem⟩

/-- Claim C8: whenever the cgroup record matched a numeric container id,
the resolved name is the descending-priority choice among (a) the config
file hostname lookup, (b) the `pct list` lookup, (c) the systemd service
name, and (d) literal "Unknown", where each step's failure (missing file,
raising subprocess, or the 'Unknown' sentinel) falls through to the next;
resolution always returns the id with some name, never aborting. -/
theorem c8_name_fallbacks (env : ResolverEnv) (cid : String)
    (h1 : env.cgroup_exists = true) (h2 : env.lxc_in_cgroup = true)
    (h3 : env.container_match = some cid) (h4 : pyIsDigit cid = true) :
    get_container_info env =
      some ⟨cid, chainName (confStep env) (pctStep env) (serviceStep env)⟩ := by
  simp only [get_container_info, h1, h2, h3, h4, Bool.not_true, Bool.false_eq_true,
    if_false, if_true]
  unfold chainName confStep pctStep serviceStep
  cases hcg2 : env.conf_grep <;> cases hpo : env.pct_output <;>
    cases hsm : env.service_match <;>
    cases hce : env.conf_exists <;> cases hpe : env.pct_exists <;>
      simp only [hce, hpe, if_true, if_false, Bool.false_eq_true, and_true,
        and_false] <;>
      split_ifs <;> simp_all

theorem c8_witness :
    (envTraining.cgroup_exists = true ∧ envTraining.lxc_in_cgroup = true
      ∧ envTraining.container_match = some "105" ∧ pyIsDigit "105" = true)
    ∧ get_container_info envTraining = some ⟨"105", "training-job"⟩ := by
  refine ⟨⟨rfl, rfl, rfl, by decide⟩, ?_⟩
  rw [c8_name_fallbacks envTraining "105" rfl rfl rfl (by decide)]
  rfl

/-- Claim C9, counterexample: with a resolver that names pid 100's and
pid 200's shared container 105 differently ("alpha" vs "beta", as happens
when a name lookup succeeds for one cycle's call and fails for another),
swapping the two processes in the telemetry read changes the
`multi_gpu_containers` entry for "105" — its stored name is the FIRST
contributing process's name — so the two mappings are not equal even
though the reads are permutations of each other. -/
theorem c9_counterexample :
    rawSwap.processes.Perm rawPair.processes
    ∧ (alookup (build_snapshot resMixed rawPair 20).multi_gpu_containers "105").map
        (fun e => e.name) = some (some "alpha")
    ∧ (alookup (build_snapshot resMixed rawSwap 20).multi_gpu_containers "105").map
        (fun e => e.name) = some (some "beta")
    ∧ alookup (build_snapshot resMixed rawPair 20).multi_gpu_containers "105" ≠
      alookup (build_snapshot resMixed rawSwap 20).multi_gpu_containers "105" := by
  refine ⟨?_, rfl, rfl, ?_⟩
  · exact List.Perm.swap (mkProc 100 0 5 (some 10)) (mkProc 200 1 7 none)
      [mkProc 300 0 2 (some 3)]
  · intro h
    have hmaps := congrArg (Option.map (fun (e : MultiGpuEntry) => e.name)) h
    have hA : (alookup (build_snapshot resMixed rawPair 20).multi_gpu_containers
        "105").map (fun e => e.name) = some (some "alpha") := rfl
    have hB : (alookup (build_snapshot resMixed rawSwap 20).multi_gpu_containers
        "105").map (fun e => e.name) = some (some "beta") := rfl
    rw [hA, hB] at hmaps
    exact absurd hmaps (by decide)

/-- Claim C9 (amended): under identical telemetry reads up to reordering
of the process list and identical per-pid resolver outputs, the rollup
mapping agrees at every key on membership and on all aggregate fields
(process count, total memory, summed utilization), and the multi-GPU
mapping agrees at every container id on membership and on the GPU index
set; only the name fields, inherited from the first contributing process
in input order, may differ. -/
theorem c9_amended (resolver : Nat → Option ContainerInfo) (rawA rawB : RawData)
    (nowA nowB : Nat) (hperm : rawB.processes.Perm rawA.processes)
    (k cid : String) :
    statsAt (build_snapshot resolver rawB nowB) k =
      statsAt (build_snapshot resolver rawA nowA) k
    ∧ gpusAt (build_snapshot resolver rawB nowB) cid =
      gpusAt (build_snapshot resolver rawA nowA) cid := by
  have hpm : (rawB.processes.map (annotate resolver)).Perm
      (rawA.processes.map (annotate resolver)) := hperm.map _
  constructor
  · rw [statsAt_build, statsAt_build]
    have hex : (∃ p ∈ rawB.processes.map (annotate resolver), keyOfProc p = k) ↔
        (∃ p ∈ rawA.processes.map (annotate resolver), keyOfProc p = k) := by
      constructor
      · rintro ⟨p, hp, he⟩
        exact ⟨p, hpm.subset hp, he⟩
      · rintro ⟨p, hp, he⟩
        exact ⟨p, hpm.symm.subset hp, he⟩
    have hfil : ((rawB.processes.map (annotate resolver)).filter
        (fun p => keyOfProc p = k)).Perm
        ((rawA.processes.map (annotate resolver)).filter
          (fun p => keyOfProc p = k)) := hpm.filter _
    have hcnt : cntAt (rawB.processes.map (annotate resolver)) k =
        cntAt (rawA.processes.map (annotate resolver)) k := hfil.length_eq
    have hmem2 : memAt (rawB.processes.map (annotate resolver)) k =
        memAt (rawA.processes.map (annotate resolver)) k :=
      (hfil.map _).sum_eq
    have hutl : utilAt (rawB.processes.map (annotate resolver)) k =
        utilAt (rawA.processes.map (annotate resolver)) k :=
      (hfil.map _).sum_eq
    by_cases hx : ∃ p ∈ rawA.processes.map (annotate resolver), keyOfProc p = k
    · rw [if_pos hx, if_pos (hex.mpr hx), hcnt, hmem2, hutl]
    · rw [if_neg hx, if_neg (fun hc => hx (hex.mp hc))]
  · have hfil : ((rawB.processes.map (annotate resolver)).filter (attrB cid)).Perm
        ((rawA.processes.map (annotate resolver)).filter (attrB cid)) :=
      hpm.filter _
    have hgpu : gpusOf (rawB.processes.map (annotate resolver)) cid =
        gpusOf (rawA.processes.map (annotate resolver)) cid := by
      unfold gpusOf
      apply Finset.ext
      intro a
      simp only [List.mem_toFinset]
      exact (hfil.map _).mem_iff
    rw [gpusAt_build, gpusAt_build, hgpu]

theorem c9_witness :
    rawSwap.processes.Perm rawPair.processes
    ∧ (statsAt (build_snapshot resPlain rawSwap 8) "105_0" =
        statsAt (build_snapshot resPlain rawPair 8) "105_0"
      ∧ gpusAt (build_snapshot resPlain rawSwap 8) "105" =
        gpusAt (build_snapshot resPlain rawPair 8) "105") := by
  have hp : rawSwap.processes.Perm rawPair.processes :=
    List.Perm.swap (mkProc 100 0 5 (some 10)) (mkProc 200 1 7 none)
      [mkProc 300 0 2 (some 3)]
  exact ⟨hp, c9_amended resPlain rawPair rawSwap 8 8 hp "105_0" "105"⟩

/-- Claim C10: the cache only ever stores success snapshots — failed
builds do not install their error snapshot — so any call that is answered
from the cache (no telemetry invocation) returns a snapshot whose error
field is unset, for every call sequence from the initial empty state. -/
theorem c10_cache_only_success (resolver : Nat → Option ContainerInfo)
    (interval : Nat) (inputs : List (Nat × Except String RawData)) :
    ∀ rb ∈ (runCalls resolver interval ⟨none, 0⟩ inputs).1,
      rb.2 = false → rb.1.error = none :=
  runCalls_error_free resolver interval inputs ⟨none, 0⟩ (by simp)

theorem c10_witness :
    ((build_snapshot resPlain rawPair 0, false) ∈
      (runCalls resPlain 5 ⟨none, 0⟩
        [(0, Except.ok rawPair), (3, Except.ok rawPair)]).1)
    ∧ (false = false)
    ∧ (build_snapshot resPlain rawPair 0).error = none := by
  have hmem : (build_snapshot resPlain rawPair 0, false) ∈
      (runCalls resPlain 5 ⟨none, 0⟩
        [(0, Except.ok rawPair), (3, Except.ok rawPair)]).1 := by
    show (build_snapshot resPlain rawPair 0, false) ∈
      [(build_snapshot resPlain rawPair 0, true),
       (build_snapshot resPlain rawPair 0, false)]
    exact List.mem_cons_of_mem _ (List.mem_cons_self _ _)
  exact ⟨hmem, rfl,
    c10_cache_only_success resPlain 5
      [(0, Except.ok rawPair), (3, Except.ok rawPair)] _ hmem rfl⟩

end ProxmoxGML
